import Mathlib

/-!
Shallow embedding of the CKD-prediction pipeline from `app.py`:
the GFR estimator `calculate_GFR`, the stage classifier `get_stage_info`,
the diet lookup `get_diet_plan`, the rule-based fallback predictor and the
narrow `AttributeError` compatibility shim inside the `index` route, and the
route-level error handlers.  Python floats are idealised as real numbers;
`math.pow` is modelled with its domain errors (`mathPow`); exceptions are
modelled with `Except` over a typed error universe (`PyError`).
-/

open scoped Classical

noncomputable section

/-- The kinds of Python exception relevant to the pipeline:
`ValueError` (raised by `calculate_GFR` and by `math.pow`),
`AttributeError` (raised by `model.predict` on version skew), and any
other exception, each carrying its message. -/
inductive PyError : Type where
  | valueError (msg : String) : PyError
  | attributeError (msg : String) : PyError
  | otherError (msg : String) : PyError
  deriving DecidableEq

/-- A row of the `diet_plan` table, kept as an uninterpreted tuple of
column strings. -/
def DietRow : Type := List String

/-- The external MySQL store, abstracted as a query function from
(stage, dietType) to either a row list or a raised error. -/
structure DietStore : Type where
  query : String → String → Except PyError (List DietRow)

/-- The parsed form data of one request: 24 numeric fields plus the
display name and the gender string (cf. the `data` dict in `index`). -/
structure PatientRecord : Type where
  name : String
  age : ℝ
  gender : String
  bp : ℝ
  sg : ℝ
  al : ℝ
  su : ℝ
  rbc : ℝ
  pc : ℝ
  pcc : ℝ
  ba : ℝ
  bgr : ℝ
  bu : ℝ
  sc : ℝ
  sod : ℝ
  pot : ℝ
  hemo : ℝ
  pcv : ℝ
  wc : ℝ
  rc : ℝ
  htn : ℝ
  dm : ℝ
  cad : ℝ
  appet : ℝ
  pe : ℝ
  ane : ℝ

/-- Python's `str.lower()`: character-wise lowercasing of the string. -/
def pyLower (s : String) : String :=
  String.mk (s.data.map Char.toLower)

/-- Python's `math.pow` on reals: raises `ValueError("math domain error")`
for a negative base with a non-integer exponent and for a zero base with a
negative exponent; otherwise returns the real power `Real.rpow`. -/
def mathPow (x y : ℝ) : Except PyError ℝ :=
  if x < 0 ∧ ¬ (∃ n : ℤ, y = (n : ℝ)) then
    Except.error (PyError.valueError ("math domain error"))
  else if x = 0 ∧ y < 0 then
    Except.error (PyError.valueError ("math domain error"))
  else
    Except.ok (x ^ y)

/-- `calculate_GFR` from `app.py` (lines 45-64): validates the gender
string case-insensitively, selects κ and α per gender, and computes
`141 * pow(min(Scr/κ,1), α) * pow(max(Scr/κ,1), -1.209) * pow(0.993, age)
* 1.018`, propagating any `math.pow` domain error. -/
def calculate_GFR (Scr : ℝ) (gender : String) (age : ℝ) : Except PyError ℝ :=
  if pyLower gender ∉ (["male", "female"] : List String) then
    Except.error (PyError.valueError (("Invalid gender: ") ++ gender))
  else
    let kappa : ℝ := if pyLower gender = ("female") then 0.7 else 0.9
    let alpha : ℝ := if pyLower gender = ("female") then -0.329 else -0.411
    let min_Scr_kappa : ℝ := min (Scr / kappa) 1
    let max_Scr_kappa : ℝ := max (Scr / kappa) 1
    match mathPow min_Scr_kappa alpha with
    | Except.error e => Except.error e
    | Except.ok p1 =>
      match mathPow max_Scr_kappa (-1.209) with
      | Except.error e => Except.error e
      | Except.ok p2 =>
        match mathPow 0.993 age with
        | Except.error e => Except.error e
        | Except.ok p3 => Except.ok (141 * p1 * p2 * p3 * 1.018)

/-- The MDRD-style reference formula exactly as the specification words it:
κ = 0.7 (female) / 0.9 (male), α = −0.329 (female) / −0.411 (male),
`a = min(Scr/κ, 1)`, `b = max(Scr/κ, 1)`,
result `141 · a^α · b^(−1.209) · 0.993^age · 1.018`. -/
def MDRD_spec (Scr : ℝ) (gender : String) (age : ℝ) : ℝ :=
  let kappa : ℝ := if pyLower gender = ("female") then 0.7 else 0.9
  let alpha : ℝ := if pyLower gender = ("female") then -0.329 else -0.411
  let a : ℝ := min (Scr / kappa) 1
  let b : ℝ := max (Scr / kappa) 1
  141 * a ^ alpha * b ^ (-1.209 : ℝ) * (0.993 : ℝ) ^ age * 1.018

/-- `get_stage_info` from `app.py` (lines 83-94): strict `>` thresholds
90, 60, 30, 15 on the GFR, returning the stage label and code. -/
def get_stage_info (gfr : ℝ) : String × String :=
  if gfr > 90 then
    (("Stage 1: Healthy kidneys or kidney damage with normal or high GFR"), ("Stg1"))
  else if gfr > 60 then
    (("Stage 2: Kidney damage and mild decrease in GFR"), ("Stg2"))
  else if gfr > 30 then
    (("Stage 3: Moderate decrease in GFR"), ("Stg3"))
  else if gfr > 15 then
    (("Stage 4: Severe decrease in GFR"), ("Stg4"))
  else
    (("Stage 5: Kidney Failure"), ("Stg5"))

/-- `get_diet_plan` from `app.py` (lines 66-81): returns `([], [])` when no
MySQL handle exists; otherwise runs the Veg query then the NonVeg query and
returns `([], [])` as soon as either raises. -/
def get_diet_plan (mysql : Option DietStore) (stage : String) :
    List DietRow × List DietRow :=
  match mysql with
  | none => ([], [])
  | some st =>
    match st.query stage ("Veg") with
    | Except.error _ => ([], [])
    | Except.ok veg_data =>
      match st.query stage ("NonVeg") with
      | Except.error _ => ([], [])
      | Except.ok nonveg_data => (veg_data, nonveg_data)

/-- The rule-based fallback prediction of `index` (lines 154-160):
positive iff serum creatinine > 1.2, or blood urea > 20, or
hemoglobin < 12, or the hypertension flag is 1, or the diabetes flag is
1. -/
def fallback_pred (d : PatientRecord) : Bool :=
  if d.sc > 1.2 ∨ d.bu > 20 ∨ d.hemo < 12 ∨ d.htn = 1 ∨ d.dm = 1 then
    true
  else
    false

/-- Python's `'monotonic_cst' in str(e)`: substring containment of the
marker in the error message, as infix containment on character lists. -/
def mentions_monotonic_cst (msg : String) : Bool :=
  decide (("monotonic_cst").data <:+: msg.data)

/-- The guarded prediction step of `index` (lines 147-162): call the
model; catch exactly an `AttributeError` whose message contains
`monotonic_cst` and answer with the rule-based fallback; re-raise every
other error. -/
def predict_step (m : PatientRecord → Except PyError Bool)
    (d : PatientRecord) : Except PyError Bool :=
  match m d with
  | Except.ok b => Except.ok b
  | Except.error (PyError.attributeError msg) =>
    if mentions_monotonic_cst msg then Except.ok (fallback_pred d)
    else Except.error (PyError.attributeError msg)
  | Except.error e => Except.error e

/-- Python's `round` (banker's rounding) on a real: round to the nearest
integer, ties to the even neighbour. -/
def python_round (x : ℝ) : ℤ :=
  if Int.fract x = 1 / 2 then 2 * round (x / 2) else round x

/-- `round(gfr, 2)`: rounding to two decimal places. -/
def round2 (x : ℝ) : ℝ :=
  (python_round (x * 100) : ℝ) / 100

/-- What the route renders: the positive result page `resultp.html` with
its template data, the negative page `resultn.html`, or a flashed message
followed by a redirect back to the form. -/
inductive RouteResult : Type where
  | resultPage (stage_info : String) (gfr : ℝ)
      (veg_diet nonveg_diet : List DietRow) : RouteResult
  | negativePage : RouteResult
  | redirectWithFlash (msg : String) (category : String) : RouteResult
  deriving DecidableEq

/-- The route-level handlers of `index` (lines 180-186): a `ValueError`
is answered with the check-your-inputs flash, any other exception with
the generic prediction-error flash. -/
def handle_route_error : PyError → RouteResult
  | PyError.valueError _ =>
    RouteResult.redirectWithFlash
      ("Please check your input values. All fields must be valid numbers.")
      ("error")
  | PyError.attributeError _ =>
    RouteResult.redirectWithFlash
      ("An error occurred during prediction. Please try again.")
      ("error")
  | PyError.otherError _ =>
    RouteResult.redirectWithFlash
      ("An error occurred during prediction. Please try again.")
      ("error")

/-- The POST branch of the `index` route (lines 96-186) from the parsed
record onward: hard-stop when no model is loaded, run the guarded
prediction step, and on a positive prediction compute GFR, stage and diet
plan for the result page; raised errors reach the route-level handlers. -/
def index (model : Option (PatientRecord → Except PyError Bool))
    (mysql : Option DietStore) (d : PatientRecord) : RouteResult :=
  match model with
  | none => RouteResult.redirectWithFlash ("Error: ML model not available") ("error")
  | some m =>
    match predict_step m d with
    | Except.error e => handle_route_error e
    | Except.ok pred =>
      if pred then
        match calculate_GFR d.sc d.gender d.age with
        | Except.error e => handle_route_error e
        | Except.ok gfr =>
          let si := get_stage_info gfr
          let diets := get_diet_plan mysql si.2
          RouteResult.resultPage si.1 (round2 gfr) diets.1 diets.2
      else
        RouteResult.negativePage

/-- A record with the given fallback-relevant fields, gender and age, all
other numeric fields set to `other`: used to instantiate theorems at
concrete inputs. -/
def mkRecord (gender : String) (age sc bu hemo htn dm other : ℝ) :
    PatientRecord where
  name := ("patient")
  age := age
  gender := gender
  bp := other
  sg := other
  al := other
  su := other
  rbc := other
  pc := other
  pcc := other
  ba := other
  bgr := other
  bu := bu
  sc := sc
  sod := other
  pot := other
  hemo := hemo
  pcv := other
  wc := other
  rc := other
  htn := htn
  dm := dm
  cad := other
  appet := other
  pe := other
  ane := other

/-- `math.pow` on a positive base never raises and returns the real
power. -/
theorem mathPow_pos (x y : ℝ) (hx : 0 < x) : mathPow x y = Except.ok (x ^ y) := by
  have hA : ¬ (x < 0 ∧ ¬ (∃ n : ℤ, y = (n : ℝ))) :=
    fun h => absurd hx (not_lt.mpr h.1.le)
  have hB : ¬ (x = 0 ∧ y < 0) := by
    rintro ⟨h0, -⟩
    rw [h0] at hx
    exact lt_irrefl 0 hx
  simp only [mathPow, if_neg hA, if_neg hB]

/-- On a positive creatinine and a recognized gender, `calculate_GFR`
raises nothing and returns exactly the specification formula's value. -/
theorem calculate_GFR_ok (Scr : ℝ) (gender : String) (age : ℝ)
    (hScr : 0 < Scr)
    (hg : pyLower gender ∈ (["male", "female"] : List String)) :
    calculate_GFR Scr gender age = Except.ok (MDRD_spec Scr gender age) := by
  have hnot : ¬ (pyLower gender ∉ (["male", "female"] : List String)) :=
    not_not_intro hg
  by_cases hf : pyLower gender = ("female")
  · simp only [calculate_GFR, MDRD_spec, if_neg hnot, if_pos hf]
    rw [mathPow_pos _ _ (lt_min (div_pos hScr (by norm_num)) one_pos),
      mathPow_pos _ _ (lt_of_lt_of_le one_pos (le_max_right _ _)),
      mathPow_pos _ _ (by norm_num : (0:ℝ) < 0.993)]
  · simp only [calculate_GFR, MDRD_spec, if_neg hnot, if_neg hf]
    rw [mathPow_pos _ _ (lt_min (div_pos hScr (by norm_num)) one_pos),
      mathPow_pos _ _ (lt_of_lt_of_le one_pos (le_max_right _ _)),
      mathPow_pos _ _ (by norm_num : (0:ℝ) < 0.993)]

/-- `math.pow` on a negative base with a non-integer exponent raises the
domain error. -/
theorem mathPow_neg_base (x y : ℝ) (hx : x < 0)
    (hy : ¬ (∃ n : ℤ, y = (n : ℝ))) :
    mathPow x y = Except.error (PyError.valueError ("math domain error")) := by
  simp only [mathPow, if_pos (And.intro hx hy)]

/-- `math.pow` on a zero base with a negative exponent raises the domain
error. -/
theorem mathPow_zero_base (y : ℝ) (hy : y < 0) :
    mathPow 0 y = Except.error (PyError.valueError ("math domain error")) := by
  simp only [mathPow]
  rw [if_neg (by rintro ⟨h, -⟩; exact lt_irrefl (0 : ℝ) h)]
  simp [hy]

/-- `-0.329` is not an integer. -/
theorem alpha_female_not_int : ¬ (∃ n : ℤ, (-0.329 : ℝ) = (n : ℝ)) := by
  rintro ⟨n, hn⟩
  have h1 : ((1000 : ℝ) * (n : ℝ)) = -329 := by
    rw [← hn]
    norm_num
  have h2 : ((1000 * n : ℤ) : ℝ) = ((-329 : ℤ) : ℝ) := by
    push_cast
    linarith
  have h3 : (1000 * n : ℤ) = -329 := Int.cast_injective h2
  omega

/-- `-0.411` is not an integer. -/
theorem alpha_male_not_int : ¬ (∃ n : ℤ, (-0.411 : ℝ) = (n : ℝ)) := by
  rintro ⟨n, hn⟩
  have h1 : ((1000 : ℝ) * (n : ℝ)) = -411 := by
    rw [← hn]
    norm_num
  have h2 : ((1000 * n : ℤ) : ℝ) = ((-411 : ℤ) : ℝ) := by
    push_cast
    linarith
  have h3 : (1000 * n : ℤ) = -411 := Int.cast_injective h2
  omega

/-- On a recognized gender and non-positive creatinine, `calculate_GFR`
raises the numeric domain error of the first power, not the gender
error. -/
theorem calculate_GFR_nonpos_scr (Scr : ℝ) (gender : String) (age : ℝ)
    (hScr : Scr ≤ 0)
    (hg : pyLower gender ∈ (["male", "female"] : List String)) :
    calculate_GFR Scr gender age =
      Except.error (PyError.valueError ("math domain error")) := by
  have hnot : ¬ (pyLower gender ∉ (["male", "female"] : List String)) :=
    not_not_intro hg
  by_cases hf : pyLower gender = ("female")
  · simp only [calculate_GFR, if_neg hnot, if_pos hf]
    have hdiv : Scr / (0.7 : ℝ) ≤ 0 := div_nonpos_of_nonpos_of_nonneg hScr (by norm_num)
    have hmin : min (Scr / (0.7 : ℝ)) 1 = Scr / 0.7 :=
      min_eq_left (le_trans hdiv zero_le_one)
    rw [hmin]
    rcases lt_or_eq_of_le hdiv with h | h
    · rw [mathPow_neg_base _ _ h alpha_female_not_int]
    · rw [h, mathPow_zero_base _ (by norm_num : (-0.329 : ℝ) < 0)]
  · simp only [calculate_GFR, if_neg hnot, if_neg hf]
    have hdiv : Scr / (0.9 : ℝ) ≤ 0 := div_nonpos_of_nonpos_of_nonneg hScr (by norm_num)
    have hmin : min (Scr / (0.9 : ℝ)) 1 = Scr / 0.9 :=
      min_eq_left (le_trans hdiv zero_le_one)
    rw [hmin]
    rcases lt_or_eq_of_le hdiv with h | h
    · rw [mathPow_neg_base _ _ h alpha_male_not_int]
    · rw [h, mathPow_zero_base _ (by norm_num : (-0.411 : ℝ) < 0)]

/-- Closed form of the spec formula at the fixture female, age 50,
Scr 1.0: the min branch is 1, the max branch is 10/7. -/
theorem MDRD_fixture_eq :
    MDRD_spec 1 ("female") 50 =
      141 * (((10 / 7 : ℝ) ^ (1.209 : ℝ))⁻¹) * ((0.993 : ℝ) ^ (50 : ℕ)) * 1.018 := by
  have hf : pyLower ("female") = ("female") := by decide
  have hmin : min ((1 : ℝ) / 0.7) 1 = 1 := min_eq_right (by norm_num)
  have hmax : max ((1 : ℝ) / 0.7) 1 = (10 / 7 : ℝ) := by
    rw [max_eq_left (by norm_num : (1 : ℝ) ≤ 1 / 0.7)]
    norm_num
  have h50 : ((0.993 : ℝ) ^ ((50 : ℝ))) = (0.993 : ℝ) ^ (50 : ℕ) := by
    rw [← Real.rpow_natCast (0.993 : ℝ) 50]
    norm_num
  have hneg : ((10 / 7 : ℝ) ^ ((-1.209 : ℝ))) = ((10 / 7 : ℝ) ^ (1.209 : ℝ))⁻¹ :=
    Real.rpow_neg (by norm_num) _
  simp only [MDRD_spec, hf, if_pos, hmin, hmax, h50, hneg, Real.one_rpow]
  ring

/-- Lower numeric bound `1.5307 < (10/7)^1.209`, via the 5th power of
`(10/7)^(6/5)`. -/
theorem rpow_base_lower : (15307 / 10000 : ℝ) < (10 / 7 : ℝ) ^ (1.209 : ℝ) := by
  have hb : (1 : ℝ) < 10 / 7 := by norm_num
  have h1 : ((10 / 7 : ℝ) ^ ((6 : ℝ) / 5)) ≤ (10 / 7 : ℝ) ^ (1.209 : ℝ) :=
    (Real.rpow_le_rpow_left_iff hb).mpr (by norm_num)
  have h5 : ((10 / 7 : ℝ) ^ ((6 : ℝ) / 5)) ^ (5 : ℕ) = (10 / 7 : ℝ) ^ (6 : ℕ) := by
    rw [← Real.rpow_natCast ((10 / 7 : ℝ) ^ ((6 : ℝ) / 5)) 5,
      ← Real.rpow_mul (by norm_num : (0 : ℝ) ≤ 10 / 7),
      ← Real.rpow_natCast (10 / 7 : ℝ) 6]
    congr 1
    push_cast
    ring
  have h2 : (15307 / 10000 : ℝ) < (10 / 7 : ℝ) ^ ((6 : ℝ) / 5) := by
    refine lt_of_pow_lt_pow_left₀ 5 (Real.rpow_nonneg (by norm_num) _) ?_
    rw [h5]
    norm_num
  linarith

/-- Upper numeric bound `(10/7)^1.209 < 1.5542`, via the 100th power of
`(10/7)^(121/100)`. -/
theorem rpow_base_upper : (10 / 7 : ℝ) ^ (1.209 : ℝ) < (7771 / 5000 : ℝ) := by
  have hb : (1 : ℝ) < 10 / 7 := by norm_num
  have h1 : (10 / 7 : ℝ) ^ (1.209 : ℝ) ≤ (10 / 7 : ℝ) ^ ((121 : ℝ) / 100) :=
    (Real.rpow_le_rpow_left_iff hb).mpr (by norm_num)
  have h100 : ((10 / 7 : ℝ) ^ ((121 : ℝ) / 100)) ^ (100 : ℕ) = (10 / 7 : ℝ) ^ (121 : ℕ) := by
    rw [← Real.rpow_natCast ((10 / 7 : ℝ) ^ ((121 : ℝ) / 100)) 100,
      ← Real.rpow_mul (by norm_num : (0 : ℝ) ≤ 10 / 7),
      ← Real.rpow_natCast (10 / 7 : ℝ) 121]
    congr 1
    push_cast
    ring
  have h2 : (10 / 7 : ℝ) ^ ((121 : ℝ) / 100) < (7771 / 5000 : ℝ) := by
    refine lt_of_pow_lt_pow_left₀ 100 (by norm_num) ?_
    rw [h100]
    norm_num
  linarith

/-- The spec formula's value at the fixture is below 66 (so nowhere near
68.7). -/
theorem MDRD_fixture_lt_66 : MDRD_spec 1 ("female") 50 < 66 := by
  have hPpos : (0 : ℝ) < (10 / 7 : ℝ) ^ (1.209 : ℝ) :=
    Real.rpow_pos_of_pos (by norm_num) _
  have hPne : ((10 / 7 : ℝ) ^ (1.209 : ℝ)) ≠ 0 := ne_of_gt hPpos
  have key : (141 * (((10 / 7 : ℝ) ^ (1.209 : ℝ))⁻¹) * ((0.993 : ℝ) ^ (50 : ℕ)) * 1.018) *
      ((10 / 7 : ℝ) ^ (1.209 : ℝ)) = 141 * ((0.993 : ℝ) ^ (50 : ℕ)) * 1.018 := by
    field_simp
  rw [MDRD_fixture_eq]
  refine lt_of_mul_lt_mul_right ?_ hPpos.le
  rw [key]
  calc 141 * ((0.993 : ℝ) ^ (50 : ℕ)) * 1.018 < 66 * (15307 / 10000) := by norm_num
    _ < 66 * ((10 / 7 : ℝ) ^ (1.209 : ℝ)) :=
        mul_lt_mul_of_pos_left rpow_base_lower (by norm_num)

/-- The spec formula's value at the fixture is above 65. -/
theorem MDRD_fixture_gt_65 : 65 < MDRD_spec 1 ("female") 50 := by
  have hPpos : (0 : ℝ) < (10 / 7 : ℝ) ^ (1.209 : ℝ) :=
    Real.rpow_pos_of_pos (by norm_num) _
  have hPne : ((10 / 7 : ℝ) ^ (1.209 : ℝ)) ≠ 0 := ne_of_gt hPpos
  have key : (141 * (((10 / 7 : ℝ) ^ (1.209 : ℝ))⁻¹) * ((0.993 : ℝ) ^ (50 : ℕ)) * 1.018) *
      ((10 / 7 : ℝ) ^ (1.209 : ℝ)) = 141 * ((0.993 : ℝ) ^ (50 : ℕ)) * 1.018 := by
    field_simp
  rw [MDRD_fixture_eq]
  refine lt_of_mul_lt_mul_right ?_ hPpos.le
  rw [key]
  calc (65 : ℝ) * ((10 / 7 : ℝ) ^ (1.209 : ℝ)) < 65 * (7771 / 5000) :=
        mul_lt_mul_of_pos_left rpow_base_upper (by norm_num)
    _ < 141 * ((0.993 : ℝ) ^ (50 : ℕ)) * 1.018 := by norm_num

/-- Reduction of the route when the prediction step succeeds positively
and the GFR computation succeeds. -/
theorem index_positive (m : PatientRecord → Except PyError Bool)
    (mysql : Option DietStore) (d : PatientRecord) (gfr : ℝ)
    (hp : predict_step m d = Except.ok true)
    (hg : calculate_GFR d.sc d.gender d.age = Except.ok gfr) :
    index (some m) mysql d =
      RouteResult.resultPage (get_stage_info gfr).1 (round2 gfr)
        (get_diet_plan mysql (get_stage_info gfr).2).1
        (get_diet_plan mysql (get_stage_info gfr).2).2 := by
  simp only [index, hp, hg, if_pos]

/-- Reduction of the route when the prediction step succeeds
negatively. -/
theorem index_negative (m : PatientRecord → Except PyError Bool)
    (mysql : Option DietStore) (d : PatientRecord)
    (hp : predict_step m d = Except.ok false) :
    index (some m) mysql d = RouteResult.negativePage := by
  simp only [index, hp, Bool.false_eq_true, if_false]

/-- Reduction of the route when the prediction step raises. -/
theorem index_pred_error (m : PatientRecord → Except PyError Bool)
    (mysql : Option DietStore) (d : PatientRecord) (e : PyError)
    (hp : predict_step m d = Except.error e) :
    index (some m) mysql d = handle_route_error e := by
  simp only [index, hp]

/-- Reduction of the route when the prediction is positive but
`calculate_GFR` raises. -/
theorem index_gfr_error (m : PatientRecord → Except PyError Bool)
    (mysql : Option DietStore) (d : PatientRecord) (e : PyError)
    (hp : predict_step m d = Except.ok true)
    (hg : calculate_GFR d.sc d.gender d.age = Except.error e) :
    index (some m) mysql d = handle_route_error e := by
  simp only [index, hp, hg, if_pos]

/-- Claim C1 (amended): for every Scr > 0, recognized gender
(case-insensitive) and age ≥ 0, `calculate_GFR` returns exactly the
reference formula's value; at the fixture female, age 50, Scr 1.0 that
value lies strictly between 65 and 66 (about 65.64), not near 68.7. -/
theorem claim_C1 :
    (∀ (Scr : ℝ) (gender : String) (age : ℝ), 0 < Scr →
        pyLower gender ∈ (["male", "female"] : List String) → 0 ≤ age →
        calculate_GFR Scr gender age = Except.ok (MDRD_spec Scr gender age)) ∧
      65 < MDRD_spec 1 ("female") 50 ∧ MDRD_spec 1 ("female") 50 < 66 :=
  ⟨fun Scr gender age hScr hg _ => calculate_GFR_ok Scr gender age hScr hg,
    MDRD_fixture_gt_65, MDRD_fixture_lt_66⟩

/-- Claim C1 witness: at Scr 1, gender female, age 50 the estimator
returns the formula's value. -/
theorem claim_C1_witness :
    calculate_GFR 1 ("female") 50 = Except.ok (MDRD_spec 1 ("female") 50) :=
  claim_C1.1 1 ("female") 50 (by norm_num) (by decide) (by norm_num)

/-- Claim C1 counterexample: at the fixture female, age 50, Scr 1.0 the
code's result is the formula's value, and that value differs from the
claimed 68.7 by far more than the claimed 1e-6 tolerance. -/
theorem claim_C1_counterexample :
    calculate_GFR 1 ("female") 50 = Except.ok (MDRD_spec 1 ("female") 50) ∧
      |MDRD_spec 1 ("female") 50 - 68.7| > 1e-6 := by
  constructor
  · exact calculate_GFR_ok 1 ("female") 50 (by norm_num) (by decide)
  · have h := MDRD_fixture_lt_66
    rw [abs_of_neg (by linarith : MDRD_spec 1 ("female") 50 - 68.7 < 0)]
    norm_num
    linarith

/-- Claim C2: the stage classifier is total with strict-greater-than
thresholds 90, 60, 30, 15, and each boundary value falls into the more
severe bucket: 90 → Stage 2, 90.01 → Stage 1, 15 → Stage 5,
15.01 → Stage 4. -/
theorem claim_C2 :
    (∀ gfr : ℝ,
      (90 < gfr → get_stage_info gfr =
        (("Stage 1: Healthy kidneys or kidney damage with normal or high GFR"), ("Stg1"))) ∧
      (60 < gfr → gfr ≤ 90 → get_stage_info gfr =
        (("Stage 2: Kidney damage and mild decrease in GFR"), ("Stg2"))) ∧
      (30 < gfr → gfr ≤ 60 → get_stage_info gfr =
        (("Stage 3: Moderate decrease in GFR"), ("Stg3"))) ∧
      (15 < gfr → gfr ≤ 30 → get_stage_info gfr =
        (("Stage 4: Severe decrease in GFR"), ("Stg4"))) ∧
      (gfr ≤ 15 → get_stage_info gfr = (("Stage 5: Kidney Failure"), ("Stg5")))) ∧
    (get_stage_info 90).2 = ("Stg2") ∧ (get_stage_info 90.01).2 = ("Stg1") ∧
    (get_stage_info 15).2 = ("Stg5") ∧ (get_stage_info 15.01).2 = ("Stg4") := by
  refine ⟨fun gfr => ⟨?_, ?_, ?_, ?_, ?_⟩, ?_, ?_, ?_, ?_⟩
  · intro h
    simp only [get_stage_info]
    rw [if_pos h]
  · intro h1 h2
    simp only [get_stage_info]
    rw [if_neg (not_lt.mpr h2), if_pos h1]
  · intro h1 h2
    simp only [get_stage_info]
    rw [if_neg (not_lt.mpr (h2.trans (by norm_num))), if_neg (not_lt.mpr h2),
      if_pos h1]
  · intro h1 h2
    simp only [get_stage_info]
    rw [if_neg (not_lt.mpr (h2.trans (by norm_num))),
      if_neg (not_lt.mpr (h2.trans (by norm_num))), if_neg (not_lt.mpr h2),
      if_pos h1]
  · intro h
    simp only [get_stage_info]
    rw [if_neg (not_lt.mpr (h.trans (by norm_num))),
      if_neg (not_lt.mpr (h.trans (by norm_num))),
      if_neg (not_lt.mpr (h.trans (by norm_num))), if_neg (not_lt.mpr h)]
  · simp only [get_stage_info]
    rw [if_neg (by norm_num), if_pos (by norm_num)]
  · simp only [get_stage_info]
    rw [if_pos (by norm_num)]
  · simp only [get_stage_info]
    rw [if_neg (by norm_num), if_neg (by norm_num), if_neg (by norm_num),
      if_neg (by norm_num)]
  · simp only [get_stage_info]
    rw [if_neg (by norm_num), if_neg (by norm_num), if_neg (by norm_num),
      if_pos (by norm_num)]

/-- Claim C2 witness: a GFR of 100 classifies as Stage 1. -/
theorem claim_C2_witness :
    get_stage_info 100 =
      (("Stage 1: Healthy kidneys or kidney damage with normal or high GFR"), ("Stg1")) :=
  (claim_C2.1 100).1 (by norm_num)

/-- Claim C3: the fallback predictor is positive exactly when serum
creatinine > 1.2, blood urea > 20, hemoglobin < 12, hypertension = 1 or
diabetes = 1; a record with sc = 1.5 and all other fallback fields
non-triggering is positive, and one with sc = 1, bu = 15, hemo = 13,
htn = 0, dm = 0 is negative. -/
theorem claim_C3 :
    (∀ d : PatientRecord,
      fallback_pred d = true ↔
        (d.sc > 1.2 ∨ d.bu > 20 ∨ d.hemo < 12 ∨ d.htn = 1 ∨ d.dm = 1)) ∧
    fallback_pred (mkRecord ("male") 40 1.5 15 13 0 0 5) = true ∧
    fallback_pred (mkRecord ("male") 40 1 15 13 0 0 5) = false := by
  refine ⟨fun d => ?_, ?_, ?_⟩
  · by_cases h : d.sc > 1.2 ∨ d.bu > 20 ∨ d.hemo < 12 ∨ d.htn = 1 ∨ d.dm = 1 <;>
      simp [fallback_pred, h]
  · norm_num [fallback_pred, mkRecord]
  · norm_num [fallback_pred, mkRecord]

/-- Claim C3 witness: a record triggering only through serum creatinine
is predicted positive. -/
theorem claim_C3_witness :
    fallback_pred (mkRecord ("female") 50 2 10 14 0 0 3) = true :=
  (claim_C3.1 (mkRecord ("female") 50 2 10 14 0 0 3)).mpr
    (Or.inl (by norm_num [mkRecord]))

/-- Claim C4: the fallback is entered exactly on an `AttributeError`
whose message contains `monotonic_cst`; a successful model call passes
through, and every other error — an `AttributeError` without the marker,
a `ValueError`, or any other exception — is re-raised unchanged. -/
theorem claim_C4 :
    ∀ (m : PatientRecord → Except PyError Bool) (d : PatientRecord),
      (∀ b, m d = Except.ok b → predict_step m d = Except.ok b) ∧
      (∀ msg, m d = Except.error (PyError.attributeError msg) →
        (mentions_monotonic_cst msg = true →
          predict_step m d = Except.ok (fallback_pred d)) ∧
        (mentions_monotonic_cst msg = false →
          predict_step m d = Except.error (PyError.attributeError msg))) ∧
      (∀ msg, m d = Except.error (PyError.valueError msg) →
        predict_step m d = Except.error (PyError.valueError msg)) ∧
      (∀ msg, m d = Except.error (PyError.otherError msg) →
        predict_step m d = Except.error (PyError.otherError msg)) := by
  intro m d
  refine ⟨?_, ?_, ?_, ?_⟩
  · intro b h
    simp [predict_step, h]
  · intro msg h
    constructor
    · intro hm
      simp [predict_step, h, hm]
    · intro hm
      simp [predict_step, h, hm]
  · intro msg h
    simp [predict_step, h]
  · intro msg h
    simp [predict_step, h]

/-- Claim C4 witness: a model raising the `monotonic_cst`
`AttributeError` is answered by the rule-based fallback. -/
theorem claim_C4_witness :
    predict_step
      (fun _ => Except.error
        (PyError.attributeError
          ("DecisionTreeClassifier object has no attribute monotonic_cst")))
      (mkRecord ("male") 40 1 15 13 0 0 5) =
      Except.ok (fallback_pred (mkRecord ("male") 40 1 15 13 0 0 5)) :=
  ((claim_C4 _ _).2.1 _ rfl).1 (by decide)

/-- Claim C5: with no loaded model, every request is answered by the
model-unavailable flash and redirect, for every record and every diet
store — no prediction, GFR, stage or diet computation and no fallback. -/
theorem claim_C5 :
    ∀ (mysql : Option DietStore) (d : PatientRecord),
      index none mysql d =
        RouteResult.redirectWithFlash ("Error: ML model not available") ("error") :=
  fun _ _ => rfl

/-- Claim C5 witness: the hard stop on a record that would trigger the
fallback positively and has an invalid gender. -/
theorem claim_C5_witness :
    index none none (mkRecord ("unknown") 50 1.5 25 10 1 1 5) =
      RouteResult.redirectWithFlash ("Error: ML model not available") ("error") :=
  claim_C5 none (mkRecord ("unknown") 50 1.5 25 10 1 1 5)

/-- Claim C6: the diet lookup is total and returns two empty sequences on
every store failure (no connection, failed Veg query, failed NonVeg
query); a positive-path run whose diet lookup degrades still renders the
positive result page with the correct stage, the rounded eGFR and empty
diet sequences. -/
theorem claim_C6 :
    (∀ stage : String, get_diet_plan none stage = ([], [])) ∧
    (∀ (st : DietStore) (stage : String) (e : PyError),
      st.query stage ("Veg") = Except.error e →
      get_diet_plan (some st) stage = ([], [])) ∧
    (∀ (st : DietStore) (stage : String) (veg : List DietRow) (e : PyError),
      st.query stage ("Veg") = Except.ok veg →
      st.query stage ("NonVeg") = Except.error e →
      get_diet_plan (some st) stage = ([], [])) ∧
    (∀ (m : PatientRecord → Except PyError Bool) (mysql : Option DietStore)
        (d : PatientRecord) (gfr : ℝ),
      predict_step m d = Except.ok true →
      calculate_GFR d.sc d.gender d.age = Except.ok gfr →
      get_diet_plan mysql (get_stage_info gfr).2 = ([], []) →
      index (some m) mysql d =
        RouteResult.resultPage (get_stage_info gfr).1 (round2 gfr) [] []) := by
  refine ⟨fun stage => rfl, ?_, ?_, ?_⟩
  · intro st stage e h
    simp [get_diet_plan, h]
  · intro st stage veg e h1 h2
    simp [get_diet_plan, h1, h2]
  · intro m mysql d gfr hp hg hd
    rw [index_positive m mysql d gfr hp hg, hd]

/-- Claim C6 witness: a store whose every query raises yields empty diet
sequences. -/
theorem claim_C6_witness :
    get_diet_plan
      (some (DietStore.mk (fun _ _ => Except.error (PyError.otherError ("no connection")))))
      ("Stg3") = ([], []) :=
  claim_C6.2.1 _ ("Stg3") (PyError.otherError ("no connection")) rfl

/-- Claim C7: a negative prediction always renders the bare negative page
— skipping GFR, stage and diet computation whatever the record or store —
and the positive result page is rendered only from a positive prediction,
carrying exactly the classified stage, the 2-decimal rounded eGFR and the
looked-up diets. -/
theorem claim_C7 :
    ∀ (m : PatientRecord → Except PyError Bool) (d : PatientRecord),
      (predict_step m d = Except.ok false →
        ∀ mysql : Option DietStore,
          index (some m) mysql d = RouteResult.negativePage) ∧
      (∀ (mysql : Option DietStore) (si : String) (g : ℝ)
          (veg nonveg : List DietRow),
        index (some m) mysql d = RouteResult.resultPage si g veg nonveg →
        predict_step m d = Except.ok true ∧
        ∃ gfr : ℝ, calculate_GFR d.sc d.gender d.age = Except.ok gfr ∧
          si = (get_stage_info gfr).1 ∧ g = round2 gfr ∧
          veg = (get_diet_plan mysql (get_stage_info gfr).2).1 ∧
          nonveg = (get_diet_plan mysql (get_stage_info gfr).2).2) := by
  intro m d
  constructor
  · intro hp mysql
    exact index_negative m mysql d hp
  · intro mysql si g veg nonveg h
    cases hps : predict_step m d with
    | error e =>
      rw [index_pred_error m mysql d e hps] at h
      cases e <;> simp only [handle_route_error] at h <;> exact absurd h (by simp)
    | ok b =>
      cases b with
      | false =>
        rw [index_negative m mysql d hps] at h
        exact absurd h (by simp)
      | true =>
        cases hgs : calculate_GFR d.sc d.gender d.age with
        | error e =>
          rw [index_gfr_error m mysql d e hps hgs] at h
          cases e <;> simp only [handle_route_error] at h <;> exact absurd h (by simp)
        | ok gfr =>
          rw [index_positive m mysql d gfr hps hgs] at h
          simp only [RouteResult.resultPage.injEq] at h
          obtain ⟨h1, h2, h3, h4⟩ := h
          exact ⟨rfl, gfr, rfl, h1.symm, h2.symm, h3.symm, h4.symm⟩

/-- Claim C7 witness: a model answering negative yields the negative
page even on a record with triggering fields, invalid gender and no diet
store. -/
theorem claim_C7_witness :
    index (some (fun _ => Except.ok false)) none
      (mkRecord ("unknown") 50 9 99 1 1 1 5) = RouteResult.negativePage :=
  (claim_C7 (fun _ => Except.ok false) (mkRecord ("unknown") 50 9 99 1 1 1 5)).1
    rfl none

/-- Claim C8: an unrecognized gender makes `calculate_GFR` raise the
invalid-gender `ValueError`; a positive-prediction run on such a record
is answered by the check-your-inputs validation flash, not a numeric
failure; a case-insensitively recognized gender such as Female
estimates successfully. -/
theorem claim_C8 :
    (∀ (Scr age : ℝ) (gender : String),
      pyLower gender ∉ (["male", "female"] : List String) →
      calculate_GFR Scr gender age =
        Except.error (PyError.valueError (("Invalid gender: ") ++ gender))) ∧
    (∀ (Scr age : ℝ), 0 < Scr →
      ∃ v : ℝ, calculate_GFR Scr ("Female") age = Except.ok v) ∧
    (∀ (m : PatientRecord → Except PyError Bool) (mysql : Option DietStore)
        (d : PatientRecord),
      pyLower d.gender ∉ (["male", "female"] : List String) →
      predict_step m d = Except.ok true →
      index (some m) mysql d =
        RouteResult.redirectWithFlash
          ("Please check your input values. All fields must be valid numbers.")
          ("error")) := by
  refine ⟨?_, ?_, ?_⟩
  · intro Scr age gender hg
    simp only [calculate_GFR, if_pos hg]
  · intro Scr age hScr
    exact ⟨MDRD_spec Scr ("Female") age,
      calculate_GFR_ok Scr ("Female") age hScr (by decide)⟩
  · intro m mysql d hg hp
    have he : calculate_GFR d.sc d.gender d.age =
        Except.error (PyError.valueError (("Invalid gender: ") ++ d.gender)) := by
      simp only [calculate_GFR, if_pos hg]
    rw [index_gfr_error m mysql d _ hp he]
    rfl

/-- Claim C8 witness: gender unknown raises the invalid-gender error at
Scr 1, age 50. -/
theorem claim_C8_witness :
    calculate_GFR 1 ("unknown") 50 =
      Except.error (PyError.valueError (("Invalid gender: ") ++ ("unknown"))) :=
  claim_C8.1 1 50 ("unknown") (by decide)

/-- Claim C9: the fallback prediction depends only on the five fields
sc, bu, hemo, htn and dm: two records agreeing on them get the same
fallback answer whatever their other nineteen numeric fields, name and
gender. -/
theorem claim_C9 :
    ∀ d d' : PatientRecord, d.sc = d'.sc → d.bu = d'.bu → d.hemo = d'.hemo →
      d.htn = d'.htn → d.dm = d'.dm → fallback_pred d = fallback_pred d' := by
  intro d d' h1 h2 h3 h4 h5
  simp only [fallback_pred, h1, h2, h3, h4, h5]

/-- Claim C9 witness: two records sharing only the five fallback fields
— different gender, age and remaining fields — get the same fallback
answer. -/
theorem claim_C9_witness :
    fallback_pred (mkRecord ("male") 30 1.5 10 14 0 0 2) =
      fallback_pred (mkRecord ("female") 80 1.5 10 14 0 0 9) :=
  claim_C9 (mkRecord ("male") 30 1.5 10 14 0 0 2)
    (mkRecord ("female") 80 1.5 10 14 0 0 9) rfl rfl rfl rfl rfl

/-- Claim C10: with a recognized gender and Scr ≤ 0, the estimator
always raises the numeric domain error of the power computation — it
neither returns a value nor reports the invalid-gender error. -/
theorem claim_C10 :
    ∀ (gender : String) (Scr age : ℝ),
      pyLower gender ∈ (["male", "female"] : List String) → Scr ≤ 0 →
      calculate_GFR Scr gender age =
        Except.error (PyError.valueError ("math domain error")) :=
  fun gender Scr age hg hScr => calculate_GFR_nonpos_scr Scr gender age hScr hg

/-- Claim C10 witness: male gender with Scr −1 hits the negative-base
domain error. -/
theorem claim_C10_witness :
    calculate_GFR (-1) ("male") 45 =
      Except.error (PyError.valueError ("math domain error")) :=
  claim_C10 ("male") (-1) 45 (by decide) (by norm_num)

end
